import Mathlib

/-!
Shallow embedding of the Conductor producer registration and emission
pipeline (crates conductor_app and conductor_common, plus the earlier
single-crate revision under src/), together with proofs about the claims
of the specification.

External effects (the QuestDB store, UUID generation, serde parsing of
third-party types) are modelled as explicit parameters: a database call
becomes an outcome argument, randomness becomes a fresh-identifier
argument, and third-party parsers become function arguments.  Machine
floats are represented exactly as rationals; every floating constant in
the source (f32 MAX, MIN, EPSILON) is exactly representable, and the
comparisons the code performs on them are reproduced as exact rational
comparisons.  A reachable panic (Result unwrap on an Err value) is
modelled by returning none.
-/

namespace Conductor

/-- The QuestDB column type label; an abbreviation for String needed because
the DataTypes namespace has a constructor named String. -/
abbrev QuestLabel := String

/-- conductor_common schema.rs: the closed set of column data types. -/
inductive DataTypes
  | Int
  | Float
  | Time
  | String
  | Binary
  | Bool
  | Double
deriving DecidableEq, Repr

/-- conductor_common schema.rs, DataTypes to_quest_type_str: the fixed total
mapping from data types to QuestDB column type labels. -/
def DataTypes.to_quest_type_str : DataTypes → QuestLabel
  | DataTypes.Int => "long"
  | DataTypes.Float => "float"
  | DataTypes.Time => "timestamp"
  | DataTypes.Binary => "binary"
  | DataTypes.String => "string"
  | DataTypes.Bool => "boolean"
  | DataTypes.Double => "double"

/-- conductor_common error.rs, ConductorError.  The source pairs every
constructor except NoError with a diagnostic message string; no claim
depends on message text, so the embedding keeps only the error kind. -/
inductive ConductorError
  | NoError
  | TimestampDefined
  | NoMembers
  | InvalidColumnNames
  | TooManyColumns
  | InternalError
  | InvalidUuid
  | NameInvalid
  | Unregistered
  | InvalidData
  | InvalidSchema
deriving DecidableEq, Repr

/-- The earlier revision (src/src/producer.rs) uses the ProducerErrorCode
enum with explicit u8 discriminants instead of ConductorError. -/
inductive ProducerErrorCode
  | NoError
  | TimestampDefined
  | NoMembers
  | InvalidColumnNames
  | TooManyColumns
  | InternalError
  | InvalidUuid
  | NameInvalid
  | Unregistered
  | InvalidData
deriving DecidableEq, Repr

/-- The u8 discriminant assigned to each ProducerErrorCode constructor in
src/src/producer.rs (NoError = 0 through InvalidData = 9). -/
def ProducerErrorCode.toU8 : ProducerErrorCode → Nat
  | ProducerErrorCode.NoError => 0
  | ProducerErrorCode.TimestampDefined => 1
  | ProducerErrorCode.NoMembers => 2
  | ProducerErrorCode.InvalidColumnNames => 3
  | ProducerErrorCode.TooManyColumns => 4
  | ProducerErrorCode.InternalError => 5
  | ProducerErrorCode.InvalidUuid => 6
  | ProducerErrorCode.NameInvalid => 7
  | ProducerErrorCode.Unregistered => 8
  | ProducerErrorCode.InvalidData => 9

/-- Model of serde_json Value restricted to the scalar fragment: null,
booleans, integer numbers (serde i64/u64), float numbers (serde f64,
represented exactly as a rational) and strings.  Composite values (arrays
and objects) never appear in any claim; the only code paths that consume
them (chrono date-time parsing and byte-vector decoding) are third-party
parsers that the embedding takes as abstract function arguments. -/
inductive JsonValue
  | null
  | jbool (b : Bool)
  | jint (n : Int)
  | jfloat (q : ℚ)
  | jstr (s : String)
deriving DecidableEq, Repr

/-- serde_json Value as_i64: succeeds on integer numbers within the i64
range (u64 values above i64 MAX and float numbers give None). -/
def JsonValue.as_i64 : JsonValue → Option Int
  | JsonValue.jint n => if -(2 ^ 63) ≤ n ∧ n ≤ 2 ^ 63 - 1 then some n else none
  | _ => none

/-- serde_json Value as_f64: succeeds on any number.  The i64-to-f64
conversion is modelled as exact (faithful for all magnitudes below 2^53,
which covers every claim). -/
def JsonValue.as_f64 : JsonValue → Option ℚ
  | JsonValue.jint n => some (n : ℚ)
  | JsonValue.jfloat q => some q
  | _ => none

/-- serde_json Value as_str. -/
def JsonValue.as_str : JsonValue → Option String
  | JsonValue.jstr s => some s
  | _ => none

/-- serde_json Value as_bool. -/
def JsonValue.as_bool : JsonValue → Option Bool
  | JsonValue.jbool b => some b
  | _ => none

/-- The typed SQL parameter produced by coercion (the boxed postgres ToSql
value in the source).  The f32 constructor stores the pre-narrowing f64
value; the narrowing cast itself is not observed by any claim. -/
inductive SolidValue
  | i64 (n : Int)
  | f32 (q : ℚ)
  | time (t : Int)
  | str (s : String)
  | bool (b : Bool)
  | f64 (q : ℚ)
  | bytes (bs : List Nat)
deriving DecidableEq, Repr

/-- f32 MAX = (2 - 2^-23) * 2^127, exactly. -/
def f32MAX : ℚ := ((2 : ℚ) ^ 24 - 1) * 2 ^ 104

/-- f32 MIN = -f32 MAX, exactly. -/
def f32MIN : ℚ := -f32MAX

/-- f32 EPSILON = 2^-23, exactly. -/
def f32EPSILON : ℚ := 1 / 2 ^ 23

/-- conductor_app producer.rs, to_solid_type_from_json: converts a json
value into the typed SQL parameter dictated by the schema, or an error
message.  The chrono NaiveDateTime parse (Time branch) and the byte-vector
decode (Binary branch) are third-party serde calls, taken here as the
abstract arguments parseTime and parseBinary.  Error messages keep the
fixed prefix of the source message; the appended Debug rendering of the
value is elided. -/
def to_solid_type_from_json
    (parseTime : JsonValue → Option Int)
    (parseBinary : JsonValue → Option (List Nat))
    (val : JsonValue) (data_type : DataTypes) : Except String SolidValue :=
  match data_type with
  | DataTypes.Int =>
    match val.as_i64 with
    | some v => Except.ok (SolidValue.i64 v)
    | none => Except.error "Not possible to convert json value to i64."
  | DataTypes.Float =>
    match val.as_f64 with
    | some v =>
      if v > f32MAX - f32EPSILON ∨ v < f32MIN + f32EPSILON then
        Except.error "Not possible to convert json value to f32 (too big to fit)."
      else
        Except.ok (SolidValue.f32 v)
    | none => Except.error "Not possible to convert json value to f32 (Couldn't get f64 first)."
  | DataTypes.Time =>
    match parseTime val with
    | some v => Except.ok (SolidValue.time v)
    | none => Except.error "Not possible to convert json value to naive date time."
  | DataTypes.String =>
    match val.as_str with
    | some v => Except.ok (SolidValue.str v)
    | none => Except.error "Not possible to convert json value to string."
  | DataTypes.Bool =>
    match val.as_bool with
    | some v => Except.ok (SolidValue.bool v)
    | none => Except.error "Not possible to convert json value to bool."
  | DataTypes.Double =>
    match val.as_f64 with
    | some v => Except.ok (SolidValue.f64 v)
    | none => Except.error "Not possible to convert json value to double."
  | DataTypes.Binary =>
    match parseBinary val with
    | some v => Except.ok (SolidValue.bytes v)
    | none => Except.error "Not possible to convert json value to binary."

/-- conductor_common producer.rs, Registration.  The schema HashMap is
modelled as an association list recording the iteration order of the map
(keys pairwise distinct in any map produced by serde). -/
structure Registration where
  name : String
  schema : List (String × DataTypes)
  use_custom_id : Option String
deriving DecidableEq, Repr

/-- Registration contains_column: HashMap contains_key on the schema. -/
def Registration.contains_column (r : Registration) (column_name : String) : Bool :=
  r.schema.any (fun kv => kv.1 = column_name)

/-- Registration schema_len: HashMap len on the schema. -/
def Registration.schema_len (r : Registration) : Nat :=
  r.schema.length

/-- Rust str contains of a single character, stated over the character
list of the string (extensionally equal to String.contains, which is
defined by well-founded recursion and so does not evaluate inside the
kernel). -/
def strContainsChar (s : String) (c : Char) : Bool :=
  s.data.any (fun a => a == c)

/-- The custom id check of validate_registration: present and (empty, or
containing a dot, or containing a double quote). -/
def custom_id_invalid (r : Registration) : Bool :=
  match r.use_custom_id with
  | some custom_id =>
    custom_id.isEmpty || strContainsChar custom_id '.' || strContainsChar custom_id '\"'
  | none => false

/-- The column name loop of validate_registration: some schema key contains
a dot or a double quote. -/
def schema_has_bad_column (r : Registration) : Bool :=
  r.schema.any (fun kv => strContainsChar kv.1 '.' || strContainsChar kv.1 '\"')

/-- conductor_app producer.rs, validate_registration: runs the six checks
in the fixed source order, short-circuiting on the first failure. -/
def validate_registration (registration : Registration) : ConductorError :=
  if registration.name.isEmpty then ConductorError.NameInvalid
  else if custom_id_invalid registration then ConductorError.InvalidUuid
  else if registration.contains_column "ts" then ConductorError.TimestampDefined
  else if registration.schema.isEmpty then ConductorError.NoMembers
  else if schema_has_bad_column registration then ConductorError.InvalidColumnNames
  else if registration.schema_len > 2147483647 then ConductorError.TooManyColumns
  else ConductorError.NoError

/-- conductor_app producer.rs, generate_create_table_sql: the CREATE TABLE
statement, built by folding the schema entries onto the fixed prefix. -/
def generate_create_table_sql (registration : Registration) (table_name : String) : String :=
  (registration.schema.foldl
      (fun acc kv => acc ++ ", \"" ++ kv.1 ++ "\" " ++ kv.2.to_quest_type_str)
      ("CREATE TABLE IF NOT EXISTS \"" ++ table_name ++ "\" (ts TIMESTAMP"))
    ++ ") timestamp(ts);"

/-- One DDL column fragment per schema entry, in iteration order; the
specification shape that generate_create_table_sql is proved to equal. -/
def create_table_columns_fragment : List (String × DataTypes) → String
  | [] => ""
  | kv :: rest =>
    ", \"" ++ kv.1 ++ "\" " ++ kv.2.to_quest_type_str ++ create_table_columns_fragment rest

/-- conductor_common producer.rs, Emit with the data payload specialised to
a json object, modelled as an association list in iteration order. -/
structure EmitS where
  uuid : String
  timestamp : Option Nat
  data : List (String × JsonValue)
deriving DecidableEq, Repr

/-- conductor_app producer.rs, get_insert_sql: the parameterized INSERT
statement for the emit target table (the producer uuid), or an error when
the column list is empty.  The placeholder loop reproduces the source
exactly: the string starts at dollar-1 and the loop appends dollar-i for i
from 1 to the number of columns minus one. -/
def get_insert_sql (emit : EmitS) (column_names : List String) : Except String String :=
  match column_names with
  | [] => Except.error "Insert Sql must have at least one colum but there were none"
  | c :: rest =>
    let columns := rest.foldl (fun acc column_name => acc ++ ", " ++ ("\"" ++ column_name ++ "\"")) ("\"" ++ c ++ "\"")
    let values_str := (List.range' 1 ((c :: rest).length - 1)).foldl
      (fun acc i => acc ++ ",$" ++ toString i) "$1"
    Except.ok ("INSERT INTO \"" ++ emit.uuid ++ "\" (" ++ columns ++ ") VALUES (" ++ values_str ++ ");")

/-- conductor_app producer.rs, Producer: the catalog row deserialized from
the producers table.  The source extracts each column with try_get and
unwrap_or_default, so a column that cannot be read becomes the empty
string; the model row carries the three extracted strings directly. -/
structure Producer where
  name : String
  uuid : String
  schema : String
deriving DecidableEq, Repr

/-- The outcome of the SELECT on the producers table: a store error, or the
list of matching rows. -/
abbrev QueryOutcome := Except Unit (List Producer)

/-- The outcome of a store write (conn execute): accepted or failed. -/
inductive WriteOutcome
  | ok
  | fail
deriving DecidableEq, Repr

/-- conductor_app producer.rs, get_producer_row: the catalog lookup.  The
store round-trip is the queryResult argument; the empty-uuid check happens
before it is consulted. -/
def get_producer_row (uuid : String) (queryResult : QueryOutcome) :
    Except ConductorError Producer :=
  if uuid.isEmpty then Except.error ConductorError.InvalidUuid
  else
    match queryResult with
    | Except.error _ => Except.error ConductorError.Unregistered
    | Except.ok rows =>
      if rows.isEmpty then Except.error ConductorError.Unregistered
      else if rows.length > 1 then Except.error ConductorError.InternalError
      else
        match rows.head? with
        | some row =>
          if row.name = "" ∨ row.uuid = "" ∨ row.schema = "" then
            Except.error ConductorError.InternalError
          else Except.ok row
        | none => Except.error ConductorError.InternalError

/-- src/src/producer.rs, get_producer_row of the earlier revision: the same
lookup with ProducerErrorCode errors and a duplicated (dead) empty-uuid
check that would return NoMembers. -/
def get_producer_row_old (uuid : String) (queryResult : QueryOutcome) :
    Except ProducerErrorCode Producer :=
  if uuid.isEmpty then Except.error ProducerErrorCode.InvalidUuid
  else if uuid.isEmpty then Except.error ProducerErrorCode.NoMembers
  else
    match queryResult with
    | Except.error _ => Except.error ProducerErrorCode.Unregistered
    | Except.ok rows =>
      if rows.isEmpty then Except.error ProducerErrorCode.Unregistered
      else if rows.length > 1 then Except.error ProducerErrorCode.InternalError
      else
        match rows.head? with
        | some row =>
          if row.name = "" ∨ row.uuid = "" ∨ row.schema = "" then
            Except.error ProducerErrorCode.InternalError
          else Except.ok row
        | none => Except.error ProducerErrorCode.InternalError

/-- conductor_common producer.rs, RegistrationResult. -/
structure RegistrationResult where
  error : ConductorError
  uuid : Option String
deriving DecidableEq, Repr

/-- conductor_common producer.rs, EmitResult. -/
structure EmitResult where
  error : ConductorError
deriving DecidableEq, Repr

/-- src/src/producer.rs, EmitResult of the earlier revision: a bare u8
error code. -/
structure EmitResultOld where
  error : Nat
deriving DecidableEq, Repr

/-- conductor_app producer.rs, get_or_create_uuid_for_registration: the
custom id verbatim when present, otherwise a fresh v4 UUID.  UUID
generation is external randomness, passed in as freshUuid. -/
def get_or_create_uuid_for_registration (registration : Registration)
    (freshUuid : String) : String :=
  match registration.use_custom_id with
  | some custom_id => custom_id
  | none => freshUuid

/-- conductor_app producer.rs, generate_data_for_creation: the payload of
the two-statement persistence (create table DDL, producer name, schema
serialized as JSON text, uuid).  The serde to_string_pretty call is the
abstract argument schemaToJson. -/
def generate_data_for_creation (registration : Registration) (uuid : String)
    (schemaToJson : List (String × DataTypes) → String) :
    String × String × String × String :=
  (generate_create_table_sql registration uuid,
   registration.name,
   schemaToJson registration.schema,
   uuid)

/-- conductor_app producer.rs, persist_registration: assigns the identity,
builds the creation payload and runs the two-statement store write; a
store failure maps to InternalError, success returns the assigned uuid. -/
def persist_registration (registration : Registration) (freshUuid : String)
    (schemaToJson : List (String × DataTypes) → String)
    (store : WriteOutcome) : Except ConductorError String :=
  let uuid := get_or_create_uuid_for_registration registration freshUuid
  let _payload := generate_data_for_creation registration uuid schemaToJson
  match store with
  | WriteOutcome.ok => Except.ok uuid
  | WriteOutcome.fail => Except.error ConductorError.InternalError

/-- conductor_app producer.rs, register: validate, then persist; the
result pairs the error code with the assigned uuid (present only on
success). -/
def register (registration : Registration) (freshUuid : String)
    (schemaToJson : List (String × DataTypes) → String)
    (store : WriteOutcome) : RegistrationResult :=
  let error_code := validate_registration registration
  if error_code ≠ ConductorError.NoError then
    { error := error_code, uuid := none }
  else
    match persist_registration registration freshUuid schemaToJson store with
    | Except.ok uuid => { error := error_code, uuid := some uuid }
    | Except.error err => { error := err, uuid := none }

/-- Rust HashMap String-to-Value equality on the association list model:
equal lengths and every binding of the first map present in the second.
For maps with pairwise-distinct keys this is exactly HashMap equality. -/
def jsonMapEq (a b : List (String × JsonValue)) : Bool :=
  a.length == b.length && a.all (fun kv => b.lookup kv.1 == some kv.2)

/-- conductor_app producer.rs, validate_emit_schema (identical logic in
src/src/producer.rs): parse the registered schema text as a json object
and compare the result for equality with the emitted data map.  The serde
from_str call on the stored schema text is the abstract argument
jsonObjOfSchema. -/
def validate_emit_schema (data : EmitS) (producer : Producer)
    (jsonObjOfSchema : String → Option (List (String × JsonValue))) : Bool :=
  match jsonObjOfSchema producer.schema with
  | some schema => jsonMapEq schema data.data
  | none => false

/-- The per-field loop shared by both persist implementations: push the
key onto the column list, look the key up in the parsed schema
(InvalidColumnNames when absent, with the error constructor passed in as
badCol) and coerce the value (InvalidData on failure, passed in as
badData). -/
def build_emit_params {E : Type}
    (badCol : E) (badData : E)
    (parseTime : JsonValue → Option Int)
    (parseBinary : JsonValue → Option (List Nat))
    (schema : List (String × DataTypes)) :
    List (String × JsonValue) → Except E (List String × List SolidValue)
  | [] => Except.ok ([], [])
  | (key, val) :: rest =>
    match schema.lookup key with
    | none => Except.error badCol
    | some data_type =>
      match to_solid_type_from_json parseTime parseBinary val data_type with
      | Except.error _ => Except.error badData
      | Except.ok param =>
        match build_emit_params badCol badData parseTime parseBinary schema rest with
        | Except.ok (columns, params) => Except.ok (key :: columns, param :: params)
        | Except.error e => Except.error e

/-- conductor_app producer.rs, persist_emit: re-fetch the catalog row,
parse the stored schema (schemaOfJson models the serde from_str call into
a typed schema), build columns and coerced parameters from the emitted
data, then build and run the INSERT.  The unwrap of the get_insert_sql
result is a reachable panic, modelled as the value none; every normal
return is some. -/
def persist_emit (emit : EmitS) (queryResult : QueryOutcome)
    (schemaOfJson : String → Option (List (String × DataTypes)))
    (parseTime : JsonValue → Option Int)
    (parseBinary : JsonValue → Option (List Nat))
    (writeResult : WriteOutcome) : Option (Except ConductorError Unit) :=
  match get_producer_row emit.uuid queryResult with
  | Except.error e => some (Except.error e)
  | Except.ok producer =>
    if producer.schema.isEmpty then some (Except.error ConductorError.NoMembers)
    else
      match schemaOfJson producer.schema with
      | none => some (Except.error ConductorError.NoMembers)
      | some schema =>
        match build_emit_params ConductorError.InvalidColumnNames ConductorError.InvalidData
            parseTime parseBinary schema emit.data with
        | Except.error e => some (Except.error e)
        | Except.ok (columns, _params_store) =>
          match get_insert_sql emit columns with
          | Except.error _ => none
          | Except.ok _sql =>
            match writeResult with
            | WriteOutcome.ok => some (Except.ok ())
            | WriteOutcome.fail => some (Except.error ConductorError.InternalError)

/-- src/src/producer.rs, Emit persist of the earlier revision: the same
pipeline with ProducerErrorCode errors, except that the final store write
has its result discarded (let underscore), so it always returns Ok once
the INSERT statement was built. -/
def persist_old (emit : EmitS) (queryResult : QueryOutcome)
    (schemaOfJson : String → Option (List (String × DataTypes)))
    (parseTime : JsonValue → Option Int)
    (parseBinary : JsonValue → Option (List Nat))
    (_writeResult : WriteOutcome) : Option (Except ProducerErrorCode Unit) :=
  match get_producer_row_old emit.uuid queryResult with
  | Except.error ec => some (Except.error ec)
  | Except.ok producer =>
    if producer.schema.isEmpty then some (Except.error ProducerErrorCode.NoMembers)
    else
      match schemaOfJson producer.schema with
      | none => some (Except.error ProducerErrorCode.NoMembers)
      | some schema =>
        match build_emit_params ProducerErrorCode.InvalidColumnNames ProducerErrorCode.InvalidData
            parseTime parseBinary schema emit.data with
        | Except.error e => some (Except.error e)
        | Except.ok (columns, _params_store) =>
          match get_insert_sql emit columns with
          | Except.error _ => none
          | Except.ok _sql => some (Except.ok ())

/-- conductor_app producer.rs, emit: look the producer up, reject with
InvalidSchema when validate_emit_schema returns false, otherwise persist
and map the outcome (NoError on success).  The same queryResult argument
feeds both catalog fetches (emit and persist_emit re-fetch the same row);
a panic inside persist_emit propagates as none. -/
def emit (data : EmitS) (queryResult : QueryOutcome)
    (jsonObjOfSchema : String → Option (List (String × JsonValue)))
    (schemaOfJson : String → Option (List (String × DataTypes)))
    (parseTime : JsonValue → Option Int)
    (parseBinary : JsonValue → Option (List Nat))
    (writeResult : WriteOutcome) : Option EmitResult :=
  match get_producer_row data.uuid queryResult with
  | Except.error error_code => some { error := error_code }
  | Except.ok producer =>
    if ¬ validate_emit_schema data producer jsonObjOfSchema then
      some { error := ConductorError.InvalidSchema }
    else
      match persist_emit data queryResult schemaOfJson parseTime parseBinary writeResult with
      | none => none
      | some (Except.ok _) => some { error := ConductorError.NoError }
      | some (Except.error err) => some { error := err }

/-- src/src/producer.rs, emit of the earlier revision: look the producer
up, return InvalidColumnNames when validate_emit_schema returns TRUE
(opposite polarity to the newer emit), otherwise run persist with its
result discarded and return NoError. -/
def emit_old (data : EmitS) (queryResult : QueryOutcome)
    (jsonObjOfSchema : String → Option (List (String × JsonValue)))
    (schemaOfJson : String → Option (List (String × DataTypes)))
    (parseTime : JsonValue → Option Int)
    (parseBinary : JsonValue → Option (List Nat))
    (writeResult : WriteOutcome) : Option EmitResultOld :=
  match get_producer_row_old data.uuid queryResult with
  | Except.error error_code => some { error := error_code.toU8 }
  | Except.ok producer =>
    if validate_emit_schema data producer jsonObjOfSchema then
      some { error := ProducerErrorCode.InvalidColumnNames.toU8 }
    else
      match persist_old data queryResult schemaOfJson parseTime parseBinary writeResult with
      | none => none
      | some _ => some { error := ProducerErrorCode.NoError.toU8 }

/-! Concrete instantiations of the external parsers and store outcomes,
used to evaluate the pipeline on the specific inputs the claims name. -/

/-- A chrono parse oracle that accepts nothing; the Time branch is not
exercised by any concrete claim input. -/
def ptNone : JsonValue → Option Int := fun _ => none

/-- A byte-vector decode oracle that accepts nothing; the Binary branch is
not exercised by any concrete claim input. -/
def pbNone : JsonValue → Option (List Nat) := fun _ => none

/-- The serde to_string_pretty rendering of the schema mapping x to Int,
as stored in the catalog by registration. -/
def schemaJsonXInt : String := "\x7b\n  \"x\": \"Int\"\n\x7d"

/-- serde from_str of the stored schema text into a json object: the
schema mapping x to Int parses to the object binding x to the string
value Int (serde serializes a unit enum variant as its name). -/
def jsonObjC1 : String → Option (List (String × JsonValue)) :=
  fun s => if s = schemaJsonXInt then some [("x", JsonValue.jstr "Int")] else none

/-- serde from_str of the stored schema text into the typed schema map. -/
def schemaOfJsonC1 : String → Option (List (String × DataTypes)) :=
  fun s => if s = schemaJsonXInt then some [("x", DataTypes.Int)] else none

/-- The registration of the round-trip claim: name n, schema mapping x to
Int, no custom id. -/
def regC1 : Registration :=
  { name := "n", schema := [("x", DataTypes.Int)], use_custom_id := none }

/-- The serde to_string_pretty call made by registration persistence,
evaluated on the one schema the round-trip claim registers. -/
def schemaToJsonC1 : List (String × DataTypes) → String := fun _ => schemaJsonXInt

/-- The serde to_string_pretty rendering of the schema mapping x to the
String data type. -/
def schemaJsonXStr : String := "\x7b\n  \"x\": \"String\"\n\x7d"

/-- serde from_str of that text into a json object. -/
def jsonObjC5 : String → Option (List (String × JsonValue)) :=
  fun s => if s = schemaJsonXStr then some [("x", JsonValue.jstr "String")] else none

/-- serde from_str of that text into the typed schema map. -/
def schemaOfJsonC5 : String → Option (List (String × DataTypes)) :=
  fun s => if s = schemaJsonXStr then some [("x", DataTypes.String)] else none

/-- An emit whose data map equals the parsed registered-schema map: the
input on which validate_emit_schema returns true. -/
def emitC5 : EmitS := { uuid := "u", timestamp := none, data := [("x", JsonValue.jstr "String")] }

/-- The catalog row stored for producer u with the String schema. -/
def queryC5 : QueryOutcome := Except.ok [{ name := "n", uuid := "u", schema := schemaJsonXStr }]

/-! Helper lemmas shared between claims. -/

/-- A successful catalog lookup only returns rows whose three fields are
all non-empty: the deserialization guard rejects any default field. -/
theorem lookup_ok_fields (uuid : String) (qr : QueryOutcome) (p : Producer)
    (h : get_producer_row uuid qr = Except.ok p) :
    p.name ≠ "" ∧ p.uuid ≠ "" ∧ p.schema ≠ "" := by
  unfold get_producer_row at h
  split at h
  · exact absurd h (by simp)
  · split at h
    · exact absurd h (by simp)
    · split at h
      · exact absurd h (by simp)
      · split at h
        · exact absurd h (by simp)
        · split at h
          · split at h
            · exact absurd h (by simp)
            · rename_i hbad
              push_neg at hbad
              cases h
              exact hbad
          · exact absurd h (by simp)

/-- The old and the new catalog lookup succeed on exactly the same inputs
with the same row: the dead duplicate uuid check never fires, and the two
function bodies branch identically. -/
theorem lookup_old_of_new (uuid : String) (qr : QueryOutcome) (p : Producer)
    (h : get_producer_row uuid qr = Except.ok p) :
    get_producer_row_old uuid qr = Except.ok p := by
  unfold get_producer_row at h
  unfold get_producer_row_old
  split at h
  · exact absurd h (by simp)
  · rename_i hne
    rw [if_neg hne, if_neg hne]
    split at h
    · exact absurd h (by simp)
    · split at h
      · exact absurd h (by simp)
      · split at h
        · exact absurd h (by simp)
        · rename_i he hl
          rw [if_neg he, if_neg hl]
          split at h
          · split at h
            · exact absurd h (by simp)
            · rename_i hbad
              rw [if_neg hbad]
              cases h
              rfl
          · exact absurd h (by simp)

/-- Folding the DDL column fragments onto a seed string appends the
per-entry fragments, one per schema entry, in iteration order. -/
theorem foldl_create_columns (l : List (String × DataTypes)) :
    ∀ s : String,
      l.foldl (fun acc kv => acc ++ ", \"" ++ kv.1 ++ "\" " ++ kv.2.to_quest_type_str) s
        = s ++ create_table_columns_fragment l := by
  induction l with
  | nil => intro s; simp [create_table_columns_fragment, String.append_empty]
  | cons kv rest ih =>
    intro s
    rw [List.foldl_cons, ih]
    simp only [create_table_columns_fragment, String.append_assoc]

/-- C2: for table t and columns a, b the generated statement carries the
placeholder list dollar-1, dollar-1 (the loop appends dollar-i for i up to
the column count minus one), not dollar-1, dollar-2 as the claim states;
the single-column statement and the empty-column error are as claimed. -/
theorem claim_C2_insert_sql_eval :
    get_insert_sql { uuid := "t", timestamp := none, data := [] } ["a", "b"]
        = Except.ok "INSERT INTO \"t\" (\"a\", \"b\") VALUES ($1,$1);"
    ∧ get_insert_sql { uuid := "t", timestamp := none, data := [] } ["a", "b", "c"]
        = Except.ok "INSERT INTO \"t\" (\"a\", \"b\", \"c\") VALUES ($1,$1,$2);"
    ∧ get_insert_sql { uuid := "t", timestamp := none, data := [] } ["a"]
        = Except.ok "INSERT INTO \"t\" (\"a\") VALUES ($1);"
    ∧ get_insert_sql { uuid := "t", timestamp := none, data := [] } []
        = Except.error "Insert Sql must have at least one colum but there were none" := by
  refine ⟨?_, ?_, ?_, ?_⟩ <;> rfl

/-- C8: the generated DDL is exactly the fixed prefix quoting the table
name, the implicit leading ts TIMESTAMP column, one quoted column fragment
per schema entry in iteration order, and the trailing timestamp(ts)
partition clause; the type mapping is the fixed total mapping. -/
theorem claim_C8_create_table_sql :
    ∀ (r : Registration) (table_name : String),
      generate_create_table_sql r table_name =
        "CREATE TABLE IF NOT EXISTS \"" ++ table_name ++ "\" (ts TIMESTAMP"
          ++ create_table_columns_fragment r.schema ++ ") timestamp(ts);"
      ∧ DataTypes.Int.to_quest_type_str = "long"
      ∧ DataTypes.Float.to_quest_type_str = "float"
      ∧ DataTypes.Time.to_quest_type_str = "timestamp"
      ∧ DataTypes.String.to_quest_type_str = "string"
      ∧ DataTypes.Binary.to_quest_type_str = "binary"
      ∧ DataTypes.Bool.to_quest_type_str = "boolean"
      ∧ DataTypes.Double.to_quest_type_str = "double" := by
  intro r table_name
  refine ⟨?_, rfl, rfl, rfl, rfl, rfl, rfl, rfl⟩
  unfold generate_create_table_sql
  rw [foldl_create_columns]

/-- C4 counterexample: the numeric value 12345678901234.0 is far inside the
epsilon-adjusted 32-bit float range, so coercing it to Float succeeds with
the narrowed parameter instead of being rejected as the claim states. -/
theorem claim_C4_counterexample :
    to_solid_type_from_json ptNone pbNone (JsonValue.jfloat 12345678901234) DataTypes.Float
      = Except.ok (SolidValue.f32 12345678901234) := by
  have h : ¬((12345678901234 : ℚ) > f32MAX - f32EPSILON
      ∨ (12345678901234 : ℚ) < f32MIN + f32EPSILON) := by
    norm_num [f32MAX, f32MIN, f32EPSILON]
  simp [to_solid_type_from_json, JsonValue.as_f64, h]

/-- C4 amended: a finite f64 value v is rejected for Float exactly when
v exceeds f32 MAX minus f32 EPSILON or is below f32 MIN plus f32 EPSILON
(constants represented exactly); Double imposes no range restriction; and
the concrete value 12345678901234.0 is accepted for both Float and
Double. -/
theorem claim_C4_float_range :
    ∀ (q : ℚ) (pt : JsonValue → Option Int) (pb : JsonValue → Option (List Nat)),
      ((∃ msg, to_solid_type_from_json pt pb (JsonValue.jfloat q) DataTypes.Float
          = Except.error msg)
        ↔ (q > f32MAX - f32EPSILON ∨ q < f32MIN + f32EPSILON))
      ∧ to_solid_type_from_json pt pb (JsonValue.jfloat q) DataTypes.Double
          = Except.ok (SolidValue.f64 q)
      ∧ to_solid_type_from_json pt pb (JsonValue.jfloat 12345678901234) DataTypes.Float
          = Except.ok (SolidValue.f32 12345678901234)
      ∧ to_solid_type_from_json pt pb (JsonValue.jfloat 12345678901234) DataTypes.Double
          = Except.ok (SolidValue.f64 12345678901234) := by
  intro q pt pb
  have h0 : ¬((12345678901234 : ℚ) > f32MAX - f32EPSILON
      ∨ (12345678901234 : ℚ) < f32MIN + f32EPSILON) := by
    norm_num [f32MAX, f32MIN, f32EPSILON]
  refine ⟨?_, rfl, by simp [to_solid_type_from_json, JsonValue.as_f64, h0], rfl⟩
  unfold to_solid_type_from_json JsonValue.as_f64
  by_cases h : q > f32MAX - f32EPSILON ∨ q < f32MIN + f32EPSILON
  · simp [h]
  · simp [h]

/-- C1: evaluating the registered round trip.  Registration of name n with
schema x to Int succeeds with the fresh non-empty identifier, and the Int
coercion of the value 5 yields the 64-bit integer parameter 5; but the
emit of x = 5 against the stored catalog row returns InvalidSchema, not
NoError, because validate_emit_schema demands the emitted data map equal
the registered schema map values included. -/
theorem claim_C1_round_trip_eval :
    register regC1 "u" schemaToJsonC1 WriteOutcome.ok
        = { error := ConductorError.NoError, uuid := some "u" }
    ∧ ("u" : String) ≠ ""
    ∧ emit { uuid := "u", timestamp := none, data := [("x", JsonValue.jint 5)] }
        (Except.ok [{ name := "n", uuid := "u", schema := schemaJsonXInt }])
        jsonObjC1 schemaOfJsonC1 ptNone pbNone WriteOutcome.ok
        = some { error := ConductorError.InvalidSchema }
    ∧ to_solid_type_from_json ptNone pbNone (JsonValue.jint 5) DataTypes.Int
        = Except.ok (SolidValue.i64 5) := by
  refine ⟨by decide, by decide, by decide, rfl⟩

/-- C3: validate_registration runs its six checks in the fixed source
order, short-circuiting on the first failing check, and returns NoError
when none fails; in particular an empty name yields NameInvalid regardless
of any other defect. -/
theorem claim_C3_validation_order :
    ∀ r : Registration,
      (r.name.isEmpty = true → validate_registration r = ConductorError.NameInvalid)
      ∧ (r.name.isEmpty = false → custom_id_invalid r = true →
          validate_registration r = ConductorError.InvalidUuid)
      ∧ (r.name.isEmpty = false → custom_id_invalid r = false →
          r.contains_column "ts" = true →
          validate_registration r = ConductorError.TimestampDefined)
      ∧ (r.name.isEmpty = false → custom_id_invalid r = false →
          r.contains_column "ts" = false → r.schema.isEmpty = true →
          validate_registration r = ConductorError.NoMembers)
      ∧ (r.name.isEmpty = false → custom_id_invalid r = false →
          r.contains_column "ts" = false → r.schema.isEmpty = false →
          schema_has_bad_column r = true →
          validate_registration r = ConductorError.InvalidColumnNames)
      ∧ (r.name.isEmpty = false → custom_id_invalid r = false →
          r.contains_column "ts" = false → r.schema.isEmpty = false →
          schema_has_bad_column r = false → r.schema_len > 2147483647 →
          validate_registration r = ConductorError.TooManyColumns)
      ∧ (r.name.isEmpty = false → custom_id_invalid r = false →
          r.contains_column "ts" = false → r.schema.isEmpty = false →
          schema_has_bad_column r = false → ¬(r.schema_len > 2147483647) →
          validate_registration r = ConductorError.NoError) := by
  intro r
  unfold validate_registration
  refine ⟨?_, ?_, ?_, ?_, ?_, ?_, ?_⟩ <;> intros <;> simp_all

/-- C3 witness: a registration with empty name, an illegal custom id, the
reserved ts column and an illegal column name still fails with
NameInvalid, the first check in the order. -/
theorem claim_C3_witness :
    validate_registration
        { name := "", schema := [("ts", DataTypes.Int), ("a.b", DataTypes.Bool)],
          use_custom_id := some "c.d" }
      = ConductorError.NameInvalid :=
  (claim_C3_validation_order _).1 (by decide)

/-- C6: the catalog lookup taxonomy.  An empty id fails with InvalidUuid
whatever the store would answer; a store error or an empty row list gives
Unregistered; more than one row gives InternalError; a single row with any
empty field gives InternalError; and a single well-formed row is returned
as the producer record. -/
theorem claim_C6_lookup_taxonomy :
    ∀ (uuid : String) (qr : QueryOutcome),
      (uuid.isEmpty = true →
          get_producer_row uuid qr = Except.error ConductorError.InvalidUuid)
      ∧ (uuid.isEmpty = false → qr = Except.error () →
          get_producer_row uuid qr = Except.error ConductorError.Unregistered)
      ∧ (uuid.isEmpty = false → qr = Except.ok [] →
          get_producer_row uuid qr = Except.error ConductorError.Unregistered)
      ∧ (∀ rows, uuid.isEmpty = false → qr = Except.ok rows → 1 < rows.length →
          get_producer_row uuid qr = Except.error ConductorError.InternalError)
      ∧ (∀ row, uuid.isEmpty = false → qr = Except.ok [row] →
          (row.name = "" ∨ row.uuid = "" ∨ row.schema = "") →
          get_producer_row uuid qr = Except.error ConductorError.InternalError)
      ∧ (∀ row, uuid.isEmpty = false → qr = Except.ok [row] →
          row.name ≠ "" → row.uuid ≠ "" → row.schema ≠ "" →
          get_producer_row uuid qr = Except.ok row) := by
  intro uuid qr
  refine ⟨?_, ?_, ?_, ?_, ?_, ?_⟩
  · intro h; simp [get_producer_row, h]
  · intro h hq; subst hq; simp [get_producer_row, h]
  · intro h hq; subst hq; simp [get_producer_row, h]
  · intro rows h hq hl
    subst hq
    have hne : rows.isEmpty = false := by
      cases rows with
      | nil => simp at hl
      | cons a t => rfl
    simp [get_producer_row, h, hne, hl]
  · intro row h hq hbad
    subst hq
    simp [get_producer_row, h, hbad]
  · intro row h hq h1 h2 h3
    subst hq
    simp [get_producer_row, h, h1, h2, h3]

/-- C6 witness: looking up a non-empty id against a store holding exactly
one well-formed row for it returns that row. -/
theorem claim_C6_witness :
    get_producer_row "u" (Except.ok [{ name := "n", uuid := "u", schema := "s" }])
      = Except.ok { name := "n", uuid := "u", schema := "s" } :=
  (claim_C6_lookup_taxonomy "u"
      (Except.ok [{ name := "n", uuid := "u", schema := "s" }])).2.2.2.2.2
    { name := "n", uuid := "u", schema := "s" }
    (by decide) rfl (by decide) (by decide) (by decide)

/-- C9: every producer record returned by a successful catalog lookup has
all three string fields non-empty. -/
theorem claim_C9_lookup_row_nonempty :
    ∀ (uuid : String) (qr : QueryOutcome) (p : Producer),
      get_producer_row uuid qr = Except.ok p →
      p.name ≠ "" ∧ p.uuid ≠ "" ∧ p.schema ≠ "" :=
  fun uuid qr p h => lookup_ok_fields uuid qr p h

/-- C9 witness: the invariant evaluated on a concrete successful lookup. -/
theorem claim_C9_witness :
    ({ name := "n", uuid := "u", schema := "s" } : Producer).name ≠ ""
    ∧ ({ name := "n", uuid := "u", schema := "s" } : Producer).uuid ≠ ""
    ∧ ({ name := "n", uuid := "u", schema := "s" } : Producer).schema ≠ "" :=
  claim_C9_lookup_row_nonempty "u"
    (Except.ok [{ name := "n", uuid := "u", schema := "s" }])
    { name := "n", uuid := "u", schema := "s" } rfl

/-- C7: the registration result pairs Some identifier with NoError and
None with every failure: a validation failure carries the validation
error, a persistence failure carries InternalError, and success carries
NoError together with the assigned identifier, which is the custom id
verbatim when supplied and the fresh UUID otherwise. -/
theorem claim_C7_registration_result :
    ∀ (r : Registration) (freshUuid : String)
      (schemaToJson : List (String × DataTypes) → String) (store : WriteOutcome),
      ((register r freshUuid schemaToJson store).uuid.isSome = true
        ↔ (register r freshUuid schemaToJson store).error = ConductorError.NoError)
      ∧ (validate_registration r ≠ ConductorError.NoError →
          register r freshUuid schemaToJson store
            = { error := validate_registration r, uuid := none })
      ∧ (validate_registration r = ConductorError.NoError → store = WriteOutcome.fail →
          register r freshUuid schemaToJson store
            = { error := ConductorError.InternalError, uuid := none })
      ∧ (validate_registration r = ConductorError.NoError → store = WriteOutcome.ok →
          register r freshUuid schemaToJson store
            = { error := ConductorError.NoError,
                uuid := some (get_or_create_uuid_for_registration r freshUuid) })
      ∧ (∀ cid, r.use_custom_id = some cid →
          get_or_create_uuid_for_registration r freshUuid = cid)
      ∧ (r.use_custom_id = none →
          get_or_create_uuid_for_registration r freshUuid = freshUuid) := by
  intro r freshUuid stj store
  refine ⟨?_, ?_, ?_, ?_, ?_, ?_⟩
  · by_cases hv : validate_registration r = ConductorError.NoError
    · cases store <;> simp [register, persist_registration, hv]
    · simp [register, hv]
  · intro hv; simp [register, hv]
  · intro hv hs; subst hs; simp [register, persist_registration, hv]
  · intro hv hs; subst hs; simp [register, persist_registration, hv]
  · intro cid hc; simp [get_or_create_uuid_for_registration, hc]
  · intro hc; simp [get_or_create_uuid_for_registration, hc]

/-- C7 witness: the round-trip registration succeeds and returns the
fresh identifier. -/
theorem claim_C7_witness :
    register regC1 "u" schemaToJsonC1 WriteOutcome.ok
      = { error := ConductorError.NoError,
          uuid := some (get_or_create_uuid_for_registration regC1 "u") } :=
  (claim_C7_registration_result regC1 "u" schemaToJsonC1 WriteOutcome.ok).2.2.2.1
    (by decide) rfl

/-- C5: opposite polarity of the schema-equality check in the two emit
implementations.  Whenever the lookup succeeds and validate_emit_schema
returns true, the older emit answers with the InvalidColumnNames error
code while the newer emit proceeds to persistence and returns whatever
persistence yields; on the concrete input registering a String column the
older emit returns error code 3 while the newer emit returns NoError, so
the two implementations are not equivalent. -/
theorem claim_C5_emit_polarity :
    (∀ (data : EmitS) (qr : QueryOutcome)
        (jop : String → Option (List (String × JsonValue)))
        (sp : String → Option (List (String × DataTypes)))
        (pt : JsonValue → Option Int) (pb : JsonValue → Option (List Nat))
        (w : WriteOutcome) (producer : Producer),
      get_producer_row data.uuid qr = Except.ok producer →
      validate_emit_schema data producer jop = true →
        emit_old data qr jop sp pt pb w
            = some { error := ProducerErrorCode.InvalidColumnNames.toU8 }
        ∧ emit data qr jop sp pt pb w
            = (match persist_emit data qr sp pt pb w with
               | none => none
               | some (Except.ok _) => some { error := ConductorError.NoError }
               | some (Except.error err) => some { error := err }))
    ∧ emit_old emitC5 queryC5 jsonObjC5 schemaOfJsonC5 ptNone pbNone WriteOutcome.ok
        = some { error := 3 }
    ∧ emit emitC5 queryC5 jsonObjC5 schemaOfJsonC5 ptNone pbNone WriteOutcome.ok
        = some { error := ConductorError.NoError } := by
  refine ⟨?_, by decide, by decide⟩
  intro data qr jop sp pt pb w producer h hv
  have hold := lookup_old_of_new data.uuid qr producer h
  constructor
  · simp [emit_old, hold, hv]
  · simp [emit, h, hv]

/-- C5 witness: the polarity theorem applied to the concrete String-column
input on which validate_emit_schema returns true. -/
theorem claim_C5_witness :
    emit_old emitC5 queryC5 jsonObjC5 schemaOfJsonC5 ptNone pbNone WriteOutcome.ok
        = some { error := ProducerErrorCode.InvalidColumnNames.toU8 }
    ∧ emit emitC5 queryC5 jsonObjC5 schemaOfJsonC5 ptNone pbNone WriteOutcome.ok
        = (match persist_emit emitC5 queryC5 schemaOfJsonC5 ptNone pbNone WriteOutcome.ok with
           | none => none
           | some (Except.ok _) => some { error := ConductorError.NoError }
           | some (Except.error err) => some { error := err }) :=
  claim_C5_emit_polarity.1 emitC5 queryC5 jsonObjC5 schemaOfJsonC5 ptNone pbNone
    WriteOutcome.ok { name := "n", uuid := "u", schema := schemaJsonXStr } rfl (by decide)

/-- One emitted entry is coercible against the parsed schema: its key is
present and its value converts at the declared type. -/
def emit_entry_coercible (pt : JsonValue → Option Int)
    (pb : JsonValue → Option (List Nat))
    (schema : List (String × DataTypes)) (kv : String × JsonValue) : Bool :=
  match schema.lookup kv.1 with
  | some dt =>
    match to_solid_type_from_json pt pb kv.2 dt with
    | Except.ok _ => true
    | Except.error _ => false
  | none => false

/-- When every emitted entry is coercible, the parameter-building loop
succeeds and the column list is exactly the list of emitted keys in
order. -/
theorem build_emit_params_ok {E : Type} (badCol badData : E)
    (pt : JsonValue → Option Int) (pb : JsonValue → Option (List Nat))
    (schema : List (String × DataTypes)) :
    ∀ data : List (String × JsonValue),
      (∀ kv ∈ data, emit_entry_coercible pt pb schema kv = true) →
      ∃ params, build_emit_params badCol badData pt pb schema data
          = Except.ok (data.map Prod.fst, params) := by
  intro data
  induction data with
  | nil => intro _; exact ⟨[], rfl⟩
  | cons kv rest ih =>
    intro hall
    obtain ⟨key, val⟩ := kv
    have hkv := hall (key, val) (by simp)
    have hrest : ∀ kv ∈ rest, emit_entry_coercible pt pb schema kv = true :=
      fun kv h => hall kv (List.mem_cons_of_mem _ h)
    obtain ⟨params, hp⟩ := ih hrest
    cases hl : schema.lookup key with
    | none => simp [emit_entry_coercible, hl] at hkv
    | some dt =>
      cases hs : to_solid_type_from_json pt pb val dt with
      | error e2 => simp [emit_entry_coercible, hl, hs] at hkv
      | ok param =>
        exact ⟨param :: params, by simp [build_emit_params, hl, hs, hp]⟩

/-- C10: persistence safety of the emit path.  If the lookup succeeds and
the stored schema parses, then for a non-empty data map whose every entry
is coercible the built column list is the non-empty key list, so
get_insert_sql succeeds and the unwrap cannot panic (persist_emit returns
some result); and on the same path an empty data map drives the unwrap
into the panic (persist_emit returns none), so the non-empty-data
precondition is required. -/
theorem claim_C10_persist_emit_safety :
    ∀ (e : EmitS) (qr : QueryOutcome)
      (sp : String → Option (List (String × DataTypes)))
      (pt : JsonValue → Option Int) (pb : JsonValue → Option (List Nat))
      (w : WriteOutcome) (p : Producer) (schema : List (String × DataTypes)),
      get_producer_row e.uuid qr = Except.ok p →
      sp p.schema = some schema →
      ((e.data ≠ [] →
          (∀ kv ∈ e.data, emit_entry_coercible pt pb schema kv = true) →
          ∃ res, persist_emit e qr sp pt pb w = some res)
       ∧ (e.data = [] → persist_emit e qr sp pt pb w = none)) := by
  intro e qr sp pt pb w p schema hlk hsp
  have hfields := lookup_ok_fields e.uuid qr p hlk
  have hne : p.schema.isEmpty = false := by
    rcases hfields with ⟨-, -, h3⟩
    cases hc : p.schema.isEmpty
    · rfl
    · exact absurd ((String.isEmpty_iff _).mp hc) h3
  constructor
  · intro hdata hall
    obtain ⟨params, hp⟩ := build_emit_params_ok ConductorError.InvalidColumnNames
      ConductorError.InvalidData pt pb schema e.data hall
    obtain ⟨c, rest, hcols⟩ : ∃ c rest, e.data.map Prod.fst = c :: rest := by
      cases hd : e.data with
      | nil => exact absurd hd hdata
      | cons a t => exact ⟨a.1, t.map Prod.fst, by simp [hd]⟩
    cases w
    · exact ⟨Except.ok (),
        by simp [persist_emit, hlk, hne, hsp, hp, hcols, get_insert_sql]⟩
    · exact ⟨Except.error ConductorError.InternalError,
        by simp [persist_emit, hlk, hne, hsp, hp, hcols, get_insert_sql]⟩
  · intro hdata
    have hp : build_emit_params ConductorError.InvalidColumnNames
        ConductorError.InvalidData pt pb schema e.data = Except.ok ([], []) := by
      rw [hdata]
      rfl
    simp [persist_emit, hlk, hne, hsp, hp, get_insert_sql]

/-- C10 witness: on the registered Int schema, the one-entry emit persists
without the panic while the empty-data emit reaches it. -/
theorem claim_C10_witness :
    (∃ res, persist_emit
        { uuid := "u", timestamp := none, data := [("x", JsonValue.jint 5)] }
        (Except.ok [{ name := "n", uuid := "u", schema := schemaJsonXInt }])
        schemaOfJsonC1 ptNone pbNone WriteOutcome.ok = some res)
    ∧ persist_emit { uuid := "u", timestamp := none, data := [] }
        (Except.ok [{ name := "n", uuid := "u", schema := schemaJsonXInt }])
        schemaOfJsonC1 ptNone pbNone WriteOutcome.ok = none :=
  ⟨(claim_C10_persist_emit_safety
      { uuid := "u", timestamp := none, data := [("x", JsonValue.jint 5)] }
      (Except.ok [{ name := "n", uuid := "u", schema := schemaJsonXInt }])
      schemaOfJsonC1 ptNone pbNone WriteOutcome.ok
      { name := "n", uuid := "u", schema := schemaJsonXInt }
      [("x", DataTypes.Int)] rfl rfl).1 (by decide) (by decide),
   (claim_C10_persist_emit_safety
      { uuid := "u", timestamp := none, data := [] }
      (Except.ok [{ name := "n", uuid := "u", schema := schemaJsonXInt }])
      schemaOfJsonC1 ptNone pbNone WriteOutcome.ok
      { name := "n", uuid := "u", schema := schemaJsonXInt }
      [("x", DataTypes.Int)] rfl rfl).2 rfl⟩

end Conductor
